import Mathlib

/-!
Verification of the streaming chat service of the blackbird SDK
(`blackbird_sdk/services/chat.py`), as a shallow embedding in Lean 4.

Python dicts carrying textual payloads are modelled as association lists
of string key/value pairs (`Dict`).  The HTTP client and the
`EventSourceManager` are external collaborators; their observable use is
recorded as a trace of `MgrAction`s, and the events a stream delivers to
the registered callback are given as an explicit list processed in
delivery order.  Caller callbacks that may raise are modelled as
functions into `Except Exc Unit`; invocations of the three callback
slots are recorded in an explicit log so that the delivery claims can be
stated about the program.
-/

set_option autoImplicit false

namespace Blackbird

/-- A Python dict with string keys and string (text) values, as an
association list without duplicate keys.  Lookup returns the first
binding. -/
abbrev Dict := List (String × String)

/-- `d.get(k)` / `k in d`: first binding of `k` in `d`, if any. -/
def dictGet : Dict → String → Option String
  | [], _ => none
  | (k1, v1) :: rest, k => if k1 = k then some v1 else dictGet rest k

/-- `d[k] = v` on a Python dict: replace the binding of `k` if present,
otherwise append it. -/
def dictInsert : Dict → String → String → Dict
  | [], k, v => [(k, v)]
  | (k1, v1) :: rest, k, v =>
    if k1 = k then (k, v) :: rest else (k1, v1) :: dictInsert rest k v

/-- `base.update(other)`: insert every binding of `other` into `base`,
in order, later keys overriding earlier ones. -/
def dictUpdate : Dict → Dict → Dict
  | base, [] => base
  | base, (k, v) :: rest => dictUpdate (dictInsert base k v) rest

/-- Modelled from the spec: the `CHAT` endpoint constant imported from
`blackbird_sdk.utils.constants`, a module whose source is not in the
repository snapshot.  The spec only requires it to denote the chat
endpoint; its exact value is irrelevant to every claim. -/
def CHAT : String := "/chat"

/-- Modelled from the spec: the error taxonomy of
`blackbird_sdk.utils.errors` (module not in the repository snapshot).
`validationError` carries the message and the `field_name` keyword used
at the raise site; `streamingResponseError` carries its message.
`keyError` models Python's `KeyError` on direct dict indexing, and
`featureDisabled` models the `require_feature` decorator of
`blackbird_sdk.utils.feature_flags` rejecting a disabled feature. -/
inductive ChatError where
  | validationError (message fieldName : String)
  | streamingResponseError (message : String)
  | keyError (key : String)
  | featureDisabled (feature : String)
deriving DecidableEq, Repr

/-- An exception raised inside a caller-supplied callback. -/
inductive Exc where
  | exc (message : String)
deriving DecidableEq, Repr

/-- A caller-supplied `on_chunk` callback: receives a text fragment and
either returns or raises. -/
abbrev ChunkCb := String → Except Exc Unit

/-- A raw server-sent event as seen by the chunk handler.  `data` is
`some d` when the event has a `data` attribute holding a dict, and
`none` when the attribute is absent or not a dict (the
`hasattr`/`isinstance` guard in `default_chunk_handler`). -/
structure Event where
  data : Option Dict
deriving DecidableEq, Repr

/-- Observable interactions of the chat service with its collaborators:
posts through the HTTP client and calls on the `EventSourceManager`. -/
inductive MgrAction where
  | httpPost (endpoint : String) (payload : Dict)
  | startChatStream (message agent model : String)
  | getStreamStatus (streamId : String)
  | stopStream (streamId : String)
  | pauseStream (streamId : String)
  | resumeStream (streamId : String)
deriving DecidableEq, Repr

/-- The state mutated by `default_chunk_handler` across events: the
`collected_response` accumulator plus the recorded invocations of the
caller's `on_chunk` and `on_error` callbacks, in order. -/
structure ChunkState where
  collected : List String
  onChunkCalls : List String
  onErrorCalls : List Exc
deriving DecidableEq, Repr

/-- Initial handler state: empty accumulator, no callback invocations. -/
def ChunkState.init : ChunkState := ⟨[], [], []⟩

/-- `ChatService._extract_response_text`: a string argument is returned
as is; claims about non-dict, non-string arguments (the final `str()`
fallback) are not needed, so the argument type covers the two handled
shapes. -/
inductive ApiResponse where
  | str (s : String)
  | dict (d : Dict)
deriving DecidableEq, Repr

/-- The priority-ordered key list of `_extract_response_text`. -/
def RESPONSE_KEYS : List String := ["response", "message", "text", "content", "answer"]

/-- The `for key in [...]: if key in response: return str(response[key])`
loop: value of the first listed key present in the dict. -/
def find_first_key : List String → Dict → Option String
  | [], _ => none
  | k :: ks, d =>
    match dictGet d k with
    | some v => some v
    | none => find_first_key ks d

/-- Abstraction of `json.dumps(response, indent=2)`: a concrete textual
rendering of the dict, used only on the no-recognized-key fallback path
that no claim touches. -/
def jsonDumps (d : Dict) : String :=
  "\x7b\n" ++ String.intercalate ",\n"
    (d.map (fun kv => "  \"" ++ kv.1 ++ "\": \"" ++ kv.2 ++ "\"")) ++ "\n\x7d"

/-- `ChatService._extract_response_text` (chat.py lines 46-62). -/
def extract_response_text : ApiResponse → String
  | ApiResponse.str s => s
  | ApiResponse.dict d =>
    match find_first_key RESPONSE_KEYS d with
    | some v => v
    | none => jsonDumps d

/-- The text extraction performed inside `default_chunk_handler`
(chat.py lines 78-83): `response` first, else `message`, else the empty
string; empty when the event has no dict `data`. -/
def extract_chunk_text (e : Event) : String :=
  match e.data with
  | none => ""
  | some d =>
    match dictGet d "response" with
    | some v => v
    | none =>
      match dictGet d "message" with
      | some v => v
      | none => ""

/-- The body of the `try` block of `default_chunk_handler` (chat.py
lines 77-90).  Mutation is explicit: `Sum.inl` is normal return with the
updated state, `Sum.inr` is an exception escaping the body together with
the mutations already performed before the raise (the accumulator append
and the recorded `on_chunk` invocation both precede a raise from
`on_chunk`). -/
def chunkHandlerTry (onChunk : Option ChunkCb) (st : ChunkState) (e : Event) :
    ChunkState ⊕ (ChunkState × Exc) :=
  if extract_chunk_text e = "" then Sum.inl st
  else
    match onChunk with
    | none => Sum.inl { st with collected := st.collected ++ [extract_chunk_text e] }
    | some f =>
      match f (extract_chunk_text e) with
      | Except.ok _ =>
        Sum.inl { st with
          collected := st.collected ++ [extract_chunk_text e],
          onChunkCalls := st.onChunkCalls ++ [extract_chunk_text e] }
      | Except.error ex =>
        Sum.inr ({ st with
          collected := st.collected ++ [extract_chunk_text e],
          onChunkCalls := st.onChunkCalls ++ [extract_chunk_text e] }, ex)

/-- `default_chunk_handler` (chat.py lines 75-94): the `try` body plus
the `except` clause, which forwards a caught exception to `on_error`
when one is registered and otherwise swallows it. -/
def default_chunk_handler (onChunk : Option ChunkCb) (hasOnError : Bool)
    (st : ChunkState) (e : Event) : ChunkState :=
  match chunkHandlerTry onChunk st e with
  | Sum.inl st1 => st1
  | Sum.inr (st1, ex) =>
    if hasOnError then { st1 with onErrorCalls := st1.onErrorCalls ++ [ex] } else st1

/-- Processing of the events a stream delivers to its registered
callback, in delivery order. -/
def run_chunk_handler (onChunk : Option ChunkCb) (hasOnError : Bool)
    (events : List Event) (st : ChunkState) : ChunkState :=
  events.foldl (default_chunk_handler onChunk hasOnError) st

/-- The terminal status strings of the wait loop (chat.py line 121). -/
def isTerminalStatus (s : String) : Bool :=
  ["CLOSED", "ERROR", "COMPLETED"].contains s

/-- The polling loop of `_handle_streaming_response` (chat.py lines
116-123), at a granularity of one tick per 0.1-second sleep:
`wait_loop statusAt elapsed remaining` polls the stream status at the
current tick while the fixed 30-second budget (300 ticks) is not
exhausted, stopping early on a terminal status.  Returns the tick at
which the loop exited. -/
def wait_loop (statusAt : Nat → String) : Nat → Nat → Nat
  | elapsed, 0 => elapsed
  | elapsed, r + 1 =>
    if isTerminalStatus (statusAt elapsed) then elapsed
    else wait_loop statusAt (elapsed + 1) r

/-- The keyword arguments of `event_source_manager.start_chat_stream`
as built on chat.py lines 107-112: `data['message']` raises `KeyError`
when absent; `agent` and `model` default to the empty string. -/
def start_chat_stream_args (data : Dict) : Except ChatError (String × String × String) :=
  match dictGet data "message" with
  | none => Except.error (ChatError.keyError "message")
  | some m => Except.ok (m, (dictGet data "agent").getD "", (dictGet data "model").getD "")

/-- The observable outcome of a facade call: the trace of collaborator
interactions, the callback-invocation log of the registered chunk
handler, and the returned value or raised error. -/
structure StreamOutcome where
  actions : List MgrAction
  callbackLog : ChunkState
  result : Except ChatError String
deriving Repr

/-- `ChatService._handle_streaming_response` (chat.py lines 64-126).
`hasESM` is whether an `EventSourceManager` is configured, `streamId`
the identifier it returns, `statusAt` the stream status it reports at
each polling tick, and `events` the events it delivers to the
registered `default_chunk_handler` before the call returns.  The local
`completion_handler` and `error_handler` are defined in the source but
never registered with `start_chat_stream`, so they are invoked by
nothing and are omitted.  The polls are one `get_stream_status` per
loop iteration; the call returns `''.join(collected_response)`. -/
def handle_streaming_response (hasESM : Bool) (streamId : String)
    (statusAt : Nat → String) (events : List Event) (data : Dict)
    (onChunk : Option ChunkCb) (hasOnComplete hasOnError : Bool) : StreamOutcome :=
  if hasESM = false then
    ⟨[], ChunkState.init,
      Except.error (ChatError.streamingResponseError "EventSourceManager not available")⟩
  else
    match start_chat_stream_args data with
    | Except.error err => ⟨[], ChunkState.init, Except.error err⟩
    | Except.ok (m, a, mo) =>
      ⟨MgrAction.startChatStream m a mo ::
          List.replicate (min (wait_loop statusAt 0 300 + 1) 300)
            (MgrAction.getStreamStatus streamId),
        run_chunk_handler onChunk hasOnError events ChunkState.init,
        Except.ok (String.join (run_chunk_handler onChunk hasOnError events ChunkState.init).collected)⟩

/-- `ChatService.send_message` (chat.py lines 20-44).  The payload is
`{'message': message}` updated with `options`; a missing or falsy
`options.get('agent')` raises `ValidationError` before anything else.
The streaming branch requires `streaming`, a configured
`EventSourceManager` and the `streaming_responses` feature flag
(`streamingFeature`), and calls `_handle_streaming_response(data,
**kwargs)`: the caller's `on_chunk`, `on_complete` and `on_error`
arguments bind to `send_message`'s named parameters and are therefore
never part of `**kwargs`, so the inner call receives no callbacks.
Otherwise the payload is posted to `CHAT`; `post` gives the HTTP
client's response. -/
def send_message (hasESM streamingFeature : Bool) (streamId : String)
    (statusAt : Nat → String) (events : List Event) (post : String → Dict → String)
    (message : String) (options : Option Dict) (streaming : Bool)
    (on_chunk : Option ChunkCb) (hasOnComplete hasOnError : Bool) : StreamOutcome :=
  if (dictGet (options.getD []) "agent").getD "" = "" then
    ⟨[], ChunkState.init,
      Except.error (ChatError.validationError "agent is required" "agent")⟩
  else if streaming && hasESM && streamingFeature then
    handle_streaming_response hasESM streamId statusAt events
      (dictUpdate [("message", message)] (options.getD [])) none false false
  else
    ⟨[MgrAction.httpPost CHAT (dictUpdate [("message", message)] (options.getD []))],
      ChunkState.init,
      Except.ok (post CHAT (dictUpdate [("message", message)] (options.getD [])))⟩

/-- Invocation log of the callbacks handed to `_send_streaming_message`
(its `handle_event` closure): number of `on_complete` calls, the error
messages passed to `on_error`, and the `(message, tokens_per_second)`
chunk dicts passed to `on_chunk`, in order. -/
structure CbLog where
  completeCalls : Nat
  errorCalls : List String
  chunkCalls : List (String × String)
deriving DecidableEq, Repr

/-- Empty callback log. -/
def CbLog.init : CbLog := ⟨0, [], []⟩

/-- The `handle_event` closure of `_send_streaming_message` (chat.py
lines 136-158).  An event without a dict `data` raises inside the `try`
(attribute access) and is routed to `on_error`; a `status` of
`complete` or `error` invokes the matching callback; otherwise a
`response` key yields an `on_chunk` call carrying the response text and
the `tokens_per_second` field (default 0, rendered as the string "0"). -/
def handle_event (hasOnChunk hasOnComplete hasOnError : Bool)
    (log : CbLog) (e : Event) : CbLog :=
  match e.data with
  | none =>
    if hasOnError then { log with errorCalls := log.errorCalls ++ ["attribute error"] } else log
  | some d =>
    if dictGet d "status" = some "complete" then
      if hasOnComplete then { log with completeCalls := log.completeCalls + 1 } else log
    else if dictGet d "status" = some "error" then
      if hasOnError then
        { log with errorCalls := log.errorCalls ++ [(dictGet d "error").getD "Stream error"] }
      else log
    else
      match dictGet d "response" with
      | some v =>
        if hasOnChunk then
          { log with chunkCalls :=
              log.chunkCalls ++ [(v, (dictGet d "tokens_per_second").getD "0")] }
        else log
      | none => log

/-- `ChatService._send_streaming_message` (chat.py lines 128-172):
raises when no `EventSourceManager` is configured, otherwise registers
`handle_event`, starts the stream and returns the stream id
immediately.  `events` are the events subsequently delivered to
`handle_event`. -/
def send_streaming_inner (hasESM : Bool) (streamId : String) (events : List Event)
    (data : Dict) (hasOnChunk hasOnComplete hasOnError : Bool) :
    List MgrAction × CbLog × Except ChatError String :=
  if hasESM = false then
    ([], CbLog.init,
      Except.error (ChatError.streamingResponseError "EventSourceManager not available"))
  else
    match start_chat_stream_args data with
    | Except.error err => ([], CbLog.init, Except.error err)
    | Except.ok (m, a, mo) =>
      ([MgrAction.startChatStream m a mo],
        events.foldl (handle_event hasOnChunk hasOnComplete hasOnError) CbLog.init,
        Except.ok streamId)

/-- Default model name off macOS (chat.py line 184). -/
def DEFAULT_MODEL_OTHER : String := "unsloth/Qwen3-1.7B-bnb-4bit"

/-- Default model name on macOS (chat.py line 190). -/
def DEFAULT_MODEL_DARWIN : String := "mlx-community/Qwen3-1.7B-bnb-4bit"

/-- `agent or ''` (chat.py lines 183 and 189): `None` and the empty
string are both falsy. -/
def pyOrEmpty : Option String → String
  | none => ""
  | some s => s

/-- `model or <default>` (chat.py lines 184 and 190): `None` and the
empty string both fall back to the platform default. -/
def pyOrDefault (model : Option String) (dflt : String) : String :=
  match model with
  | none => dflt
  | some s => if s = "" then dflt else s

/-- `ChatService.send_streaming_message` (chat.py lines 174-193): the
`require_feature("streaming_responses")` decorator rejects the call when
the feature is disabled; a missing `EventSourceManager` raises
`StreamingResponseError` before any streaming activity; otherwise the
payload is built with platform-dependent model defaults and handed to
`_send_streaming_message` together with the caller's callbacks. -/
def send_streaming_message (streamingFeature hasESM isDarwin : Bool)
    (streamId : String) (events : List Event) (message : String)
    (agent model : Option String) (hasOnChunk hasOnComplete hasOnError : Bool) :
    List MgrAction × CbLog × Except ChatError String :=
  if streamingFeature = false then
    ([], CbLog.init, Except.error (ChatError.featureDisabled "streaming_responses"))
  else if hasESM = false then
    ([], CbLog.init,
      Except.error (ChatError.streamingResponseError
        "Streaming not available - EventSourceManager not initialized"))
  else
    send_streaming_inner hasESM streamId events
      [("message", message), ("agent", pyOrEmpty agent),
        ("model", pyOrDefault model (if isDarwin then DEFAULT_MODEL_DARWIN else DEFAULT_MODEL_OTHER))]
      hasOnChunk hasOnComplete hasOnError

/-! ### Dictionary lemmas -/

theorem dictGet_dictInsert_same (d : Dict) (k v : String) :
    dictGet (dictInsert d k v) k = some v := by
  induction d with
  | nil => simp [dictInsert, dictGet]
  | cons kv rest ih =>
    obtain ⟨k1, v1⟩ := kv
    by_cases h : k1 = k
    · simp [dictInsert, dictGet, h]
    · simp [dictInsert, dictGet, h, ih]

theorem dictGet_dictInsert_other (d : Dict) (k k1 v : String) (h : k1 ≠ k) :
    dictGet (dictInsert d k v) k1 = dictGet d k1 := by
  induction d with
  | nil => simp [dictInsert, dictGet, Ne.symm h]
  | cons kv rest ih =>
    obtain ⟨k2, v2⟩ := kv
    by_cases h2 : k2 = k
    · subst h2
      simp [dictInsert, dictGet, Ne.symm h]
    · simp [dictInsert, dictGet, h2, ih]

theorem dictGet_dictUpdate_not_mem (opts : Dict) :
    ∀ (base : Dict) (k : String), (∀ p ∈ opts, p.1 ≠ k) →
      dictGet (dictUpdate base opts) k = dictGet base k := by
  induction opts with
  | nil => intro base k _; simp [dictUpdate]
  | cons kv rest ih =>
    intro base k h
    obtain ⟨k1, v1⟩ := kv
    have h1 : k1 ≠ k := h (k1, v1) (List.mem_cons_self _ _)
    have hrest : ∀ p ∈ rest, p.1 ≠ k := fun p hp => h p (List.mem_cons_of_mem _ hp)
    calc dictGet (dictUpdate (dictInsert base k1 v1) rest) k
        = dictGet (dictInsert base k1 v1) k := ih (dictInsert base k1 v1) k hrest
      _ = dictGet base k := dictGet_dictInsert_other base k1 k v1 (Ne.symm h1)

theorem dictGet_dictUpdate_found (opts : Dict) :
    ∀ (base : Dict) (k v : String), (opts.map Prod.fst).Nodup → dictGet opts k = some v →
      dictGet (dictUpdate base opts) k = some v := by
  induction opts with
  | nil => intro base k v _ h; simp [dictGet] at h
  | cons kv rest ih =>
    intro base k v hnd h
    obtain ⟨k1, v1⟩ := kv
    simp only [List.map_cons, List.nodup_cons] at hnd
    by_cases hk : k1 = k
    · subst hk
      have hv : v1 = v := by simpa [dictGet] using h
      subst hv
      have hrest : ∀ p ∈ rest, p.1 ≠ k1 := by
        intro p hp heq
        exact hnd.1 (heq ▸ List.mem_map_of_mem Prod.fst hp)
      calc dictGet (dictUpdate (dictInsert base k1 v1) rest) k1
          = dictGet (dictInsert base k1 v1) k1 :=
            dictGet_dictUpdate_not_mem rest (dictInsert base k1 v1) k1 hrest
        _ = some v1 := dictGet_dictInsert_same base k1 v1
    · have hr : dictGet rest k = some v := by simpa [dictGet, hk] using h
      exact ih (dictInsert base k1 v1) k v hnd.2 hr

/-! ### C1 -/

/-- C1: whenever `send_message` is called with an absent `options`
mapping, or with an `options` mapping whose `agent` entry is absent or
empty, it raises `ValidationError` and issues no request to the HTTP
client and nothing to the event-source manager: the interaction trace is
empty. -/
theorem send_message_requires_agent (hasESM streamingFeature : Bool) (streamId : String)
    (statusAt : Nat → String) (events : List Event) (post : String → Dict → String)
    (message : String) (options : Option Dict) (streaming : Bool)
    (onChunk : Option ChunkCb) (hc he : Bool)
    (h : dictGet (options.getD []) "agent" = none ∨
         dictGet (options.getD []) "agent" = some "") :
    send_message hasESM streamingFeature streamId statusAt events post message options
        streaming onChunk hc he
      = ⟨[], ChunkState.init,
          Except.error (ChatError.validationError "agent is required" "agent")⟩ := by
  rcases h with h | h <;> simp [send_message, h]

/-- Witness for C1 at a concrete input: `options` absent entirely. -/
theorem send_message_requires_agent_witness :
    send_message true true "s" (fun _ => "OPEN") [] (fun _ _ => "resp") "hello" none false
        none false false
      = ⟨[], ChunkState.init,
          Except.error (ChatError.validationError "agent is required" "agent")⟩ :=
  send_message_requires_agent true true "s" (fun _ => "OPEN") [] (fun _ _ => "resp")
    "hello" none false none false false (Or.inl rfl)

/-! ### C10 -/

/-- C10: when the `options` dict itself contains a `message` key, the
payload posted to the server carries `options['message']` in place of
the `message` argument, because `data.update(options)` runs after the
base payload `{'message': message}` is built. -/
theorem options_message_overrides_payload (hasESM streamingFeature : Bool)
    (streamId : String) (statusAt : Nat → String) (events : List Event)
    (post : String → Dict → String) (message m a : String) (opts : Dict)
    (hnd : (opts.map Prod.fst).Nodup)
    (hagent : dictGet opts "agent" = some a) (ha : a ≠ "")
    (hmsg : dictGet opts "message" = some m) :
    send_message hasESM streamingFeature streamId statusAt events post message (some opts)
        false none false false
      = ⟨[MgrAction.httpPost CHAT (dictUpdate [("message", message)] opts)],
          ChunkState.init, Except.ok (post CHAT (dictUpdate [("message", message)] opts))⟩
    ∧ dictGet (dictUpdate [("message", message)] opts) "message" = some m := by
  constructor
  · simp [send_message, hagent, ha]
  · exact dictGet_dictUpdate_found opts [("message", message)] "message" m hnd hmsg

/-- Witness for C10 at a concrete input: `options` carries both `agent`
and a conflicting `message`; the posted payload's `message` is the one
from `options`. -/
theorem options_message_overrides_payload_witness :
    send_message true true "s" (fun _ => "OPEN") [] (fun _ _ => "resp") "hello"
        (some [("agent", "general"), ("message", "evil")]) false none false false
      = ⟨[MgrAction.httpPost CHAT
            (dictUpdate [("message", "hello")] [("agent", "general"), ("message", "evil")])],
          ChunkState.init,
          Except.ok "resp"⟩
    ∧ dictGet (dictUpdate [("message", "hello")] [("agent", "general"), ("message", "evil")])
        "message" = some "evil" :=
  options_message_overrides_payload true true "s" (fun _ => "OPEN") [] (fun _ _ => "resp")
    "hello" "evil" "general" [("agent", "general"), ("message", "evil")]
    (by decide) rfl (by decide) rfl

/-! ### C2 -/

theorem default_chunk_handler_sync (f : ChunkCb) (he : Bool) (e : Event) (st : ChunkState)
    (h : st.collected = st.onChunkCalls) :
    (default_chunk_handler (some f) he st e).collected
      = (default_chunk_handler (some f) he st e).onChunkCalls := by
  unfold default_chunk_handler chunkHandlerTry
  by_cases ht : extract_chunk_text e = ""
  · simp [ht, h]
  · cases hf : f (extract_chunk_text e) with
    | ok u => simp [ht, hf, h]
    | error ex => cases he <;> simp [ht, hf, h]

theorem run_chunk_handler_sync (f : ChunkCb) (he : Bool) (events : List Event) :
    ∀ st : ChunkState, st.collected = st.onChunkCalls →
      (run_chunk_handler (some f) he events st).collected
        = (run_chunk_handler (some f) he events st).onChunkCalls := by
  induction events with
  | nil => intro st h; simpa [run_chunk_handler] using h
  | cons e rest ih =>
    intro st h
    have hstep := default_chunk_handler_sync f he e st h
    simpa [run_chunk_handler, List.foldl] using ih _ hstep

/-- C2: the text returned by the synchronous collect path
(`_handle_streaming_response` with a registered `on_chunk`) is the
concatenation, in delivery order, of exactly the fragments passed to
`on_chunk`: the accumulator and the sequence of `on_chunk` invocations
coincide, with no fragment skipped, duplicated or reordered. -/
theorem collect_text_equals_chunk_calls (f : ChunkCb) (hc he : Bool) (streamId : String)
    (statusAt : Nat → String) (events : List Event) (data : Dict) (m a mo : String)
    (hargs : start_chat_stream_args data = Except.ok (m, a, mo)) :
    (handle_streaming_response true streamId statusAt events data (some f) hc he).result
      = Except.ok
          (String.join (run_chunk_handler (some f) he events ChunkState.init).onChunkCalls)
    ∧ (run_chunk_handler (some f) he events ChunkState.init).collected
      = (run_chunk_handler (some f) he events ChunkState.init).onChunkCalls := by
  have hsync := run_chunk_handler_sync f he events ChunkState.init rfl
  refine ⟨?_, hsync⟩
  simp only [handle_streaming_response, hargs]
  rw [hsync]
  simp

/-- Witness for C2: the spec's three-event scenario, with a caller
handler that succeeds on every fragment. -/
theorem collect_text_equals_chunk_calls_witness :
    (handle_streaming_response true "s" (fun _ => "COMPLETED")
        [⟨some [("response", "Hi")]⟩, ⟨some [("response", " there")]⟩,
          ⟨some [("status", "complete")]⟩]
        [("message", "Hello"), ("agent", "general")] (some (fun _ => Except.ok ()))
        false false).result
      = Except.ok
          (String.join (run_chunk_handler (some (fun _ => Except.ok ())) false
            [⟨some [("response", "Hi")]⟩, ⟨some [("response", " there")]⟩,
              ⟨some [("status", "complete")]⟩] ChunkState.init).onChunkCalls)
    ∧ (run_chunk_handler (some (fun _ => Except.ok ())) false
        [⟨some [("response", "Hi")]⟩, ⟨some [("response", " there")]⟩,
          ⟨some [("status", "complete")]⟩] ChunkState.init).collected
      = (run_chunk_handler (some (fun _ => Except.ok ())) false
          [⟨some [("response", "Hi")]⟩, ⟨some [("response", " there")]⟩,
            ⟨some [("status", "complete")]⟩] ChunkState.init).onChunkCalls :=
  collect_text_equals_chunk_calls (fun _ => Except.ok ()) false false "s"
    (fun _ => "COMPLETED")
    [⟨some [("response", "Hi")]⟩, ⟨some [("response", " there")]⟩,
      ⟨some [("status", "complete")]⟩]
    [("message", "Hello"), ("agent", "general")] "Hello" "general" "" rfl

/-! ### C3 -/

/-- C3 fails on the code: a caller-supplied `on_chunk` handler given to
the facade `send_message` binds to its named parameter and is not in
`**kwargs`, so `_handle_streaming_response(data, **kwargs)` runs with no
callbacks.  At the concrete input below — streaming enabled, manager and
feature present, handler supplied, one event carrying the non-empty
fragment "Hi" — the fragment is extracted and collected (the call
returns "Hi") yet the caller's handler is invoked zero times. -/
theorem send_message_streaming_drops_handler :
    (send_message true true "s" (fun _ => "COMPLETED") [⟨some [("response", "Hi")]⟩]
        (fun _ _ => "") "hello" (some [("agent", "general")]) true
        (some (fun _ => Except.ok ())) false true).callbackLog.onChunkCalls = []
    ∧ (send_message true true "s" (fun _ => "COMPLETED") [⟨some [("response", "Hi")]⟩]
        (fun _ _ => "") "hello" (some [("agent", "general")]) true
        (some (fun _ => Except.ok ())) false true).callbackLog.collected = ["Hi"]
    ∧ (send_message true true "s" (fun _ => "COMPLETED") [⟨some [("response", "Hi")]⟩]
        (fun _ _ => "") "hello" (some [("agent", "general")]) true
        (some (fun _ => Except.ok ())) false true).result = Except.ok "Hi" :=
  ⟨rfl, rfl, rfl⟩

/-! ### C4 -/

set_option maxRecDepth 4000 in
/-- C4 fails on the code as stated: the collect path's timeout is the
hardcoded constant 30 seconds (300 polling ticks of 0.1 s), not a
caller-supplied `T`.  On a stream that never reaches a terminal state
the wait loop runs the full 300 ticks, exceeding the bound `T` plus one
polling tick for a hypothetical caller-requested timeout of one second
(10 ticks). -/
theorem wait_loop_ignores_caller_timeout :
    wait_loop (fun _ => "STREAMING") 0 300 = 300 ∧ 10 + 1 < 300 :=
  ⟨rfl, by decide⟩

theorem wait_loop_le (statusAt : Nat → String) :
    ∀ (r t : Nat), wait_loop statusAt t r ≤ t + r := by
  intro r
  induction r with
  | zero => intro t; simp [wait_loop]
  | succ n ih =>
    intro t
    by_cases h : isTerminalStatus (statusAt t)
    · simp [wait_loop, h]
    · have := ih (t + 1)
      simp only [wait_loop, h, if_false, Bool.false_eq_true]
      omega

/-- C4 amended: the collect path's timeout is fixed at 30 seconds (300
polls at 0.1-second granularity) and is not caller-supplied; within that
fixed budget the wait loop always terminates, for every status sequence,
whether or not the stream ever reaches a terminal state. -/
theorem wait_loop_bounded_by_fixed_timeout (statusAt : Nat → String) :
    wait_loop statusAt 0 300 ≤ 300 := by
  simpa using wait_loop_le statusAt 300 0

/-! ### C5 -/

theorem wait_loop_no_terminal (statusAt : Nat → String) :
    ∀ (r t : Nat), (∀ u, u < t + r → isTerminalStatus (statusAt u) = false) →
      wait_loop statusAt t r = t + r := by
  intro r
  induction r with
  | zero => intro t _; simp [wait_loop]
  | succ n ih =>
    intro t h
    have ht : isTerminalStatus (statusAt t) = false := h t (by omega)
    have hrec : wait_loop statusAt (t + 1) n = t + 1 + n :=
      ih (t + 1) (fun u hu => h u (by omega))
    simp only [wait_loop, ht, Bool.false_eq_true, if_false]
    omega

set_option maxRecDepth 16000 in
/-- C5: when the fixed timeout elapses before the stream reaches a
terminal state, the collect path returns the partial accumulated text
gathered so far, and its whole interaction with the event-source
manager is one `start_chat_stream` followed by 300 status polls: it
issues no stop, no pause, no resume — no state-changing operation on the
session or the stream — leaving the stream open. -/
theorem waiter_timeout_preserves_stream (streamId : String) (statusAt : Nat → String)
    (events : List Event) (data : Dict) (onChunk : Option ChunkCb) (hc he : Bool)
    (m a mo : String)
    (hargs : start_chat_stream_args data = Except.ok (m, a, mo))
    (htimeout : ∀ t, t < 300 → isTerminalStatus (statusAt t) = false) :
    (handle_streaming_response true streamId statusAt events data onChunk hc he).result
      = Except.ok (String.join (run_chunk_handler onChunk he events ChunkState.init).collected)
    ∧ (handle_streaming_response true streamId statusAt events data onChunk hc he).actions
      = MgrAction.startChatStream m a mo
          :: List.replicate 300 (MgrAction.getStreamStatus streamId)
    ∧ (∀ s, MgrAction.stopStream s
        ∉ (handle_streaming_response true streamId statusAt events data onChunk hc he).actions)
    ∧ (∀ s, MgrAction.pauseStream s
        ∉ (handle_streaming_response true streamId statusAt events data onChunk hc he).actions)
    ∧ (∀ s, MgrAction.resumeStream s
        ∉ (handle_streaming_response true streamId statusAt events data onChunk hc he).actions) := by
  have hw : wait_loop statusAt 0 300 = 300 := by
    simpa using wait_loop_no_terminal statusAt 300 0 (fun u hu => htimeout u (by omega))
  have hmin : min (300 + 1) 300 = 300 := by omega
  have hact :
      (handle_streaming_response true streamId statusAt events data onChunk hc he).actions
        = MgrAction.startChatStream m a mo
            :: List.replicate 300 (MgrAction.getStreamStatus streamId) := by
    simp [handle_streaming_response, hargs, hw, hmin]
  refine ⟨?_, hact, ?_, ?_, ?_⟩
  · simp [handle_streaming_response, hargs]
  · intro s
    rw [hact]
    simp [List.mem_replicate]
  · intro s
    rw [hact]
    simp [List.mem_replicate]
  · intro s
    rw [hact]
    simp [List.mem_replicate]

/-- Witness for C5: a stream whose status is always `OPEN` (never
terminal), with no events delivered. -/
theorem waiter_timeout_preserves_stream_witness :
    (handle_streaming_response true "s" (fun _ => "OPEN") []
        [("message", "m"), ("agent", "a")] none false false).result
      = Except.ok (String.join (run_chunk_handler none false [] ChunkState.init).collected)
    ∧ (handle_streaming_response true "s" (fun _ => "OPEN") []
        [("message", "m"), ("agent", "a")] none false false).actions
      = MgrAction.startChatStream "m" "a" ""
          :: List.replicate 300 (MgrAction.getStreamStatus "s")
    ∧ (∀ s, MgrAction.stopStream s
        ∉ (handle_streaming_response true "s" (fun _ => "OPEN") []
            [("message", "m"), ("agent", "a")] none false false).actions)
    ∧ (∀ s, MgrAction.pauseStream s
        ∉ (handle_streaming_response true "s" (fun _ => "OPEN") []
            [("message", "m"), ("agent", "a")] none false false).actions)
    ∧ (∀ s, MgrAction.resumeStream s
        ∉ (handle_streaming_response true "s" (fun _ => "OPEN") []
            [("message", "m"), ("agent", "a")] none false false).actions) :=
  waiter_timeout_preserves_stream "s" (fun _ => "OPEN") []
    [("message", "m"), ("agent", "a")] none false false "m" "a" "" rfl (fun _ _ => rfl)

/-! ### C6 -/

/-- C6 fails on the code as stated: with streaming requested, no
`EventSourceManager` configured and the feature flag on, the facade
`send_message` raises nothing — the streaming guard is false, so it
silently proceeds by the non-streaming path and posts the payload to the
HTTP client.  Concretely, the call below returns the HTTP response and
its trace is exactly one POST. -/
theorem send_message_no_esm_falls_back :
    (send_message false true "s" (fun _ => "OPEN") [] (fun _ _ => "server-reply") "hello"
        (some [("agent", "general")]) true none false false).result
      = Except.ok "server-reply"
    ∧ (send_message false true "s" (fun _ => "OPEN") [] (fun _ _ => "server-reply") "hello"
        (some [("agent", "general")]) true none false false).actions
      = [MgrAction.httpPost CHAT [("message", "hello"), ("agent", "general")]] :=
  ⟨rfl, rfl⟩

/-- C6 amended: `send_streaming_message` does fail fast with
`StreamingResponseError` before any streaming or network activity when
no `EventSourceManager` is configured; but the facade `send_message`
with streaming requested and no `EventSourceManager` does not raise — it
falls back to a plain non-streaming HTTP POST of the payload. -/
theorem streaming_requires_event_source_manager :
    (∀ (isDarwin : Bool) (streamId : String) (events : List Event) (message : String)
        (agent model : Option String) (hc hcp he : Bool),
      send_streaming_message true false isDarwin streamId events message agent model hc hcp he
        = ([], CbLog.init,
            Except.error (ChatError.streamingResponseError
              "Streaming not available - EventSourceManager not initialized")))
    ∧ (∀ (streamId : String) (statusAt : Nat → String) (events : List Event)
        (post : String → Dict → String) (message : String) (onChunk : Option ChunkCb)
        (hc he : Bool),
      send_message false true streamId statusAt events post message
          (some [("agent", "general")]) true onChunk hc he
        = ⟨[MgrAction.httpPost CHAT (dictUpdate [("message", message)] [("agent", "general")])],
            ChunkState.init,
            Except.ok (post CHAT (dictUpdate [("message", message)] [("agent", "general")]))⟩) :=
  ⟨fun _ _ _ _ _ _ _ _ _ => rfl, fun _ _ _ _ _ _ _ _ => rfl⟩

/-! ### C7 -/

/-- C7: for every event payload given as a mapping, the extracted text
is the value of the first key present in the fixed priority order —
`response` first, then `message`, then the generic `text` field — and
keys later in the order are ignored whenever an earlier key is
present. -/
theorem extract_response_text_priority (d : Dict) :
    (∀ v, dictGet d "response" = some v → extract_response_text (ApiResponse.dict d) = v)
    ∧ (dictGet d "response" = none →
        (∀ v, dictGet d "message" = some v → extract_response_text (ApiResponse.dict d) = v)
        ∧ (dictGet d "message" = none →
            ∀ v, dictGet d "text" = some v →
              extract_response_text (ApiResponse.dict d) = v)) := by
  refine ⟨?_, fun h1 => ⟨?_, fun h2 => ?_⟩⟩
  · intro v h
    simp [extract_response_text, find_first_key, RESPONSE_KEYS, h]
  · intro v h
    simp [extract_response_text, find_first_key, RESPONSE_KEYS, h1, h]
  · intro v h
    simp [extract_response_text, find_first_key, RESPONSE_KEYS, h1, h2, h]

/-- Witness for C7: with both `response` and `message` present the
`response` value wins; with `message` and `text` present (no `response`)
the `message` value wins. -/
theorem extract_response_text_priority_witness :
    extract_response_text (ApiResponse.dict [("response", "r1"), ("message", "m1")]) = "r1"
    ∧ extract_response_text (ApiResponse.dict [("message", "m1"), ("text", "t1")]) = "m1" :=
  ⟨(extract_response_text_priority [("response", "r1"), ("message", "m1")]).1 "r1" rfl,
    ((extract_response_text_priority [("message", "m1"), ("text", "t1")]).2 rfl).1 "m1" rfl⟩

/-! ### C8 -/

theorem extract_chunk_text_empty_of_no_keys (e : Event)
    (h : ∀ d, e.data = some d → dictGet d "response" = none ∧ dictGet d "message" = none) :
    extract_chunk_text e = "" := by
  obtain ⟨data⟩ := e
  cases data with
  | none => rfl
  | some d =>
    obtain ⟨h1, h2⟩ := h d rfl
    simp [extract_chunk_text, h1, h2]

/-- C8: an incoming event whose data has neither a `response` nor a
`message` field, or whose extracted text is empty, is a no-op heartbeat:
the handler state is unchanged — nothing is appended to the accumulator
and `on_chunk` is not invoked. -/
theorem heartbeat_event_is_noop (onChunk : Option ChunkCb) (hasOnError : Bool)
    (st : ChunkState) (e : Event)
    (h : (∀ d, e.data = some d → dictGet d "response" = none ∧ dictGet d "message" = none)
         ∨ extract_chunk_text e = "") :
    default_chunk_handler onChunk hasOnError st e = st := by
  have ht : extract_chunk_text e = "" := by
    rcases h with h | h
    · exact extract_chunk_text_empty_of_no_keys e h
    · exact h
  simp [default_chunk_handler, chunkHandlerTry, ht]

/-- Witness for C8: a pure status event carrying no text keys. -/
theorem heartbeat_event_is_noop_witness :
    default_chunk_handler none false ChunkState.init ⟨some [("status", "complete")]⟩
      = ChunkState.init :=
  heartbeat_event_is_noop none false ChunkState.init ⟨some [("status", "complete")]⟩
    (Or.inr rfl)

/-! ### C9 -/

/-- C9: when the caller-supplied `on_chunk` handler raises on a
non-empty fragment, the exception is caught inside the chunk handler —
the handler still returns a state rather than propagating — and, when an
`on_error` handler is registered, it is invoked with exactly that
exception; without one the exception is swallowed.  In both cases the
fragment was appended and passed to `on_chunk` before the raise. -/
theorem callback_exception_contained (f : ChunkCb) (ex : Exc) (st : ChunkState) (e : Event)
    (hne : extract_chunk_text e ≠ "")
    (hraise : f (extract_chunk_text e) = Except.error ex) :
    default_chunk_handler (some f) true st e
      = { collected := st.collected ++ [extract_chunk_text e],
          onChunkCalls := st.onChunkCalls ++ [extract_chunk_text e],
          onErrorCalls := st.onErrorCalls ++ [ex] }
    ∧ default_chunk_handler (some f) false st e
      = { collected := st.collected ++ [extract_chunk_text e],
          onChunkCalls := st.onChunkCalls ++ [extract_chunk_text e],
          onErrorCalls := st.onErrorCalls } := by
  obtain ⟨c, k, er⟩ := st
  constructor <;> simp [default_chunk_handler, chunkHandlerTry, hne, hraise]

/-- Witness for C9: a handler that raises on every fragment, applied to
an event carrying the fragment "Hi". -/
theorem callback_exception_contained_witness :
    default_chunk_handler (some (fun _ => Except.error (Exc.exc "boom"))) true
        ChunkState.init ⟨some [("response", "Hi")]⟩
      = { collected := ["Hi"], onChunkCalls := ["Hi"], onErrorCalls := [Exc.exc "boom"] }
    ∧ default_chunk_handler (some (fun _ => Except.error (Exc.exc "boom"))) false
        ChunkState.init ⟨some [("response", "Hi")]⟩
      = { collected := ["Hi"], onChunkCalls := ["Hi"], onErrorCalls := [] } :=
  callback_exception_contained (fun _ => Except.error (Exc.exc "boom")) (Exc.exc "boom")
    ChunkState.init ⟨some [("response", "Hi")]⟩ (by decide) rfl

end Blackbird
